import Mathlib

/-!
Verification of the lint harness in `src/lint.rs`.

The harness sits between a caller and the rustc driver.  Its two pieces are:

* `Lints::config` (the `rustc_driver::Callbacks` implementation): takes the
  configuration's pre-existing `register_lints` hook, installs a
  `parse_sess_created` hook that inserts the tracked files into the parse
  session's `file_depinfo` set, and installs a combined `register_lints` hook
  that first runs the previous hook (if any) and then the caller's callback.

* `with_lints`: builds the `Lints` value, hands it together with the caller's
  argument strings to `rustc_driver::RunCompiler`, and wraps the whole run in
  `rustc_driver::catch_fatal_errors`, so that a fatal compiler abort becomes a
  typed `Err(ErrorGuaranteed)` value instead of unwinding further.

The embedding below is a direct translation.  Rust's in-place mutation of
`Config` and of the dependency record becomes explicit state passing.
`rustc_span::Symbol` is modelled as the string itself (`Symbol::intern` is the
identity on this view); the `FxHashSet<Symbol>` dependency record becomes a
`Finset` together with a ghost counter of how many insert calls were made, so
that the "zero insertions on the empty tracked-file set" behaviour is
observable.  The external driver (`RunCompiler::run`) is an oracle producing
one of three outcomes visible at the harness boundary: a successful run, a
run returning `Err(ErrorGuaranteed)`, or a fatal abort that unwinds into
`catch_fatal_errors`.  Lint stores and sessions are opaque type parameters:
a registration hook is a state transformer on the lint store, exactly the
shape `Fn(&Session, &mut LintStore)` has.
-/

namespace RustcTools

/-- `rustc_span::Symbol`: an interned string, modelled as the string itself. -/
abbrev Symbol := String

/-- `Symbol::intern`: on this view of symbols, interning returns the path itself. -/
def Symbol.intern (s : String) : Symbol := s

/-- The parse session's `file_depinfo` set (`FxHashSet<Symbol>` in rustc):
the set of interned paths, plus a ghost counter of how many `insert` calls
were performed on it, so insertion behaviour is observable. -/
structure DepRecord where
  elems : Finset Symbol
  inserts : Nat
deriving DecidableEq

/-- `FxHashSet::insert`: set insertion (idempotent on the element set);
the ghost counter records that one insert call happened. -/
def DepRecord.insert (r : DepRecord) (s : Symbol) : DepRecord :=
  { elems := Insert.insert s r.elems, inserts := r.inserts + 1 }

/-- The part of `ParseSess` the harness touches: its `file_depinfo` record. -/
structure ParseSess where
  file_depinfo : DepRecord
deriving DecidableEq

/-- The part of `rustc_interface::interface::Config` the harness touches.
`σ` is the session type, `α` the lint-store state; `register_lints` has the
shape of `Option<Box<dyn Fn(&Session, &mut LintStore)>>` and
`parse_sess_created` of `Option<Box<dyn FnOnce(&mut ParseSess)>>`. -/
structure Config (σ α : Type) where
  register_lints : Option (σ → α → α)
  parse_sess_created : Option (ParseSess → ParseSess)

/-- The `Lints` struct: the caller's registration callback and the tracked files. -/
structure Lints (α : Type) where
  callback : α → α
  tracked_files : List String

/-- The closure `Lints::config` stores into `config.parse_sess_created`:
if `tracked_files` is empty it returns at once; otherwise it interns each
tracked file and inserts it into `file_depinfo`. -/
def parseSessCreatedHook (tracked_files : List String) (parse_sess : ParseSess) : ParseSess :=
  if tracked_files.isEmpty then parse_sess
  else
    { parse_sess with
      file_depinfo :=
        tracked_files.foldl (fun d f => d.insert (Symbol.intern f)) parse_sess.file_depinfo }

/-- `<Lints as Callbacks>::config`: takes the previous `register_lints` hook,
installs the dependency-injection closure as `parse_sess_created`, and installs
a combined `register_lints` hook that runs the previous hook first (if any)
and then the caller's callback. -/
def Lints.config (l : Lints α) (config : Config σ α) : Config σ α :=
  let previous := config.register_lints
  { parse_sess_created := some (parseSessCreatedHook l.tracked_files),
    register_lints := some (fun sess lint_store =>
      l.callback (match previous with
        | some previous => previous sess lint_store
        | none => lint_store)) }

/-- `rustc_span::ErrorGuaranteed`: a zero-sized token that an error was emitted. -/
inductive ErrorGuaranteed : Type where
  | mk : ErrorGuaranteed
deriving DecidableEq

/-- What a `RunCompiler::run` call looks like from the harness boundary:
it returns `Ok`, returns `Err(ErrorGuaranteed)`, or raises a fatal abort
that unwinds out of the closure. -/
inductive RunCompilerOutcome : Type where
  | ok : RunCompilerOutcome
  | err : ErrorGuaranteed → RunCompilerOutcome
  | fatal : RunCompilerOutcome
deriving DecidableEq

/-- `rustc_driver::catch_fatal_errors` applied to the closure whose execution
had the given outcome: a fatal unwind is caught and becomes the outer `Err`;
otherwise the closure's own `Result` is returned under `Ok`. -/
def catch_fatal_errors (outcome : RunCompilerOutcome) :
    Except ErrorGuaranteed (Except ErrorGuaranteed Unit) :=
  match outcome with
  | .ok => .ok (.ok ())
  | .err e => .ok (.error e)
  | .fatal => .error .mk

/-- `with_lints`: builds the `Lints` value from the caller's callback and
tracked files, runs the driver (an oracle: what `RunCompiler::new(args, ..).run()`
does with exactly the argument list and callbacks it receives) inside
`catch_fatal_errors`, and flattens the two error layers with `?`.
The `EarlyErrorHandler` / env-logger setup is side-effect-only and is not
modelled. -/
def with_lints (args : List String) (tracked_files : List String) (callback : α → α)
    (driver : List String → Lints α → RunCompilerOutcome) : Except ErrorGuaranteed Unit :=
  match catch_fatal_errors
      (driver args { callback := callback, tracked_files := tracked_files }) with
  | .error e => .error e
  | .ok r => r

/-- The harness result as a function of the driver call's outcome alone:
`catch_fatal_errors` followed by the `?` flattening in `with_lints`. -/
def harnessOfOutcome (outcome : RunCompilerOutcome) : Except ErrorGuaranteed Unit :=
  match catch_fatal_errors outcome with
  | .error e => .error e
  | .ok r => r

/-! ### Helper lemmas about the dependency-injection fold -/

theorem foldl_insert_spec (T : List String) (e : Finset Symbol) (n : Nat) :
    T.foldl (fun (d : DepRecord) f => d.insert (Symbol.intern f)) ⟨e, n⟩
      = (⟨e ∪ T.toFinset, n + T.length⟩ : DepRecord) := by
  induction T generalizing e n with
  | nil => simp
  | cons a t ih =>
      simp only [List.foldl_cons]
      rw [show (⟨e, n⟩ : DepRecord).insert (Symbol.intern a)
            = (⟨Insert.insert a e, n + 1⟩ : DepRecord) from rfl, ih]
      simp only [List.toFinset_cons, List.length_cons, DepRecord.mk.injEq]
      refine ⟨?_, by omega⟩
      rw [Finset.insert_union, Finset.union_insert]

theorem map_intern_eq (T : List String) : T.map Symbol.intern = T := by
  induction T with
  | nil => rfl
  | cons a t ih => simp [Symbol.intern, ih]

/-- Full characterisation of the `parse_sess_created` hook: the element set
grows by exactly the tracked files, and one insert call is made per tracked
file (none at all when the list is empty, thanks to the short-circuit). -/
theorem parseSessCreatedHook_spec (T : List String) (ps : ParseSess) :
    parseSessCreatedHook T ps =
      { file_depinfo := { elems := ps.file_depinfo.elems ∪ T.toFinset,
                          inserts := ps.file_depinfo.inserts + T.length } } := by
  obtain ⟨⟨e, n⟩⟩ := ps
  cases T with
  | nil => simp [parseSessCreatedHook]
  | cons a t =>
      simp only [parseSessCreatedHook, List.isEmpty_cons, Bool.false_eq_true, if_false]
      rw [foldl_insert_spec]

/-! ### Claims -/

/-- Claim C1: for every pre-existing registration hook `H` and caller callback,
the combined hook `Lints::config` installs is exactly "run `H` on the very
arguments it would have received, then run the callback on the result": the
installed `register_lints` equals `fun sess ls => callback (H sess ls)`, so it
can never behave as callback-then-`H`, `H`-only, or callback-only. -/
theorem config_chains_previous_then_callback (l : Lints α) (H : σ → α → α)
    (psc : Option (ParseSess → ParseSess)) :
    (l.config { register_lints := some H, parse_sess_created := psc }).register_lints
      = some (fun sess ls => l.callback (H sess ls)) := rfl

/-- Claim C2: a fatal abort raised by the driver during the run is caught by
`catch_fatal_errors` at the harness boundary and returned to the caller as the
typed value `Except.error ErrorGuaranteed.mk`; `with_lints` is a total function
into `Except`, so the failure comes back as a value, never as an uncontrolled
abort of the host. -/
theorem withLints_fatal_abort_caught (args tracked_files : List String) (callback : α → α)
    (driver : List String → Lints α → RunCompilerOutcome)
    (h : driver args { callback := callback, tracked_files := tracked_files }
        = RunCompilerOutcome.fatal) :
    with_lints args tracked_files callback driver = Except.error ErrorGuaranteed.mk := by
  simp [with_lints, h, catch_fatal_errors]

theorem withLints_fatal_abort_caught_witness :
    with_lints ["--edition=2021"] ["rules.toml"] (@id (List String)) (fun _ _ => .fatal)
      = Except.error ErrorGuaranteed.mk :=
  withLints_fatal_abort_caught ["--edition=2021"] ["rules.toml"] (@id (List String))
    (fun _ _ => .fatal) rfl

/-- Claim C3: after the dependency-injection hook runs, the record's element
set contains the interned form of every tracked file, and the resulting
element set depends only on the set of tracked files — any reordering or
duplication of the tracked-file list yields the same record contents, because
insertion into the set is idempotent. -/
theorem depinfo_superset_and_set_determined (T₁ T₂ : List String) (ps : ParseSess)
    (h : T₁.toFinset = T₂.toFinset) :
    (T₁.map Symbol.intern).toFinset ⊆ (parseSessCreatedHook T₁ ps).file_depinfo.elems ∧
      (parseSessCreatedHook T₁ ps).file_depinfo.elems
        = (parseSessCreatedHook T₂ ps).file_depinfo.elems := by
  constructor
  · rw [map_intern_eq, parseSessCreatedHook_spec]
    exact Finset.subset_union_right
  · rw [parseSessCreatedHook_spec, parseSessCreatedHook_spec]
    simp [h]

theorem depinfo_superset_and_set_determined_witness :
    (["b", "a", "b"].map Symbol.intern).toFinset
        ⊆ (parseSessCreatedHook ["b", "a", "b"] ⟨⟨∅, 0⟩⟩).file_depinfo.elems ∧
      (parseSessCreatedHook ["b", "a", "b"] ⟨⟨∅, 0⟩⟩).file_depinfo.elems
        = (parseSessCreatedHook ["a", "b"] ⟨⟨∅, 0⟩⟩).file_depinfo.elems :=
  depinfo_superset_and_set_determined ["b", "a", "b"] ["a", "b"] ⟨⟨∅, 0⟩⟩ (by decide)

/-- A `Lints` value whose callback appends a marker, used to count callback
invocations through the registry state. -/
def cOnlyLints : Lints (List String) :=
  { callback := fun ls => ls ++ ["C"], tracked_files := [] }

/-- Run the installed `register_lints` hook of a configuration once, on an
empty registry. -/
def installedHookRun (cfg : Config Unit (List String)) : Option (List String) :=
  cfg.register_lints.map (fun h => h () [])

/-- Counterexample to claim C4 as stated: starting from a configuration with
no hook, entering `Lints::config` twice chains the callback with the combined
hook installed by the first entry, so a single invocation of the finally
installed hook appends the marker twice — the callback runs twice in the run,
not at most once. -/
theorem config_reentry_double_invocation :
    installedHookRun
        (cOnlyLints.config (cOnlyLints.config
          { register_lints := none, parse_sess_created := none }))
      = some ["C", "C"] := rfl

/-- A `Lints` value whose callback is instrumented with an invocation counter
in the registry state: each callback call bumps the counter by one. -/
def countingLints (f : α → α) (tracked_files : List String) : Lints (α × Nat) :=
  { callback := fun p => (f p.1, p.2 + 1), tracked_files := tracked_files }

/-- Claim C4, amended: if the configuration phase is entered exactly once,
then one invocation of the installed hook invokes the caller's callback
exactly once — for any previous hook `H` that does not itself invoke the
callback (counter-preserving), the installed hook is the chain of `H` and the
callback, and running it bumps the invocation counter by exactly one.  The
at-most-once guarantee does not survive re-entry of the configuration phase:
each re-entry chains the callback in once more. -/
theorem callback_once_when_configured_once (f : α → α) (tf : List String)
    (H : σ → α × Nat → α × Nat) (hH : ∀ sess p, (H sess p).2 = p.2)
    (psc : Option (ParseSess → ParseSess)) (sess : σ) (p : α × Nat) :
    ((countingLints f tf).config
        { register_lints := some H, parse_sess_created := psc }).register_lints
        = some (fun s ls => (countingLints f tf).callback (H s ls)) ∧
      ((countingLints f tf).callback (H sess p)).2 = p.2 + 1 := by
  refine ⟨rfl, ?_⟩
  simp [countingLints, hH]

theorem callback_once_when_configured_once_witness :
    ((countingLints (@id Unit) []).config
        { register_lints := some (fun (_ : Unit) (p : Unit × Nat) => p),
          parse_sess_created := none }).register_lints
        = some (fun s ls =>
            (countingLints (@id Unit) []).callback
              ((fun (_ : Unit) (p : Unit × Nat) => p) s ls)) ∧
      ((countingLints (@id Unit) []).callback
          ((fun (_ : Unit) (p : Unit × Nat) => p) () ((), 0))).2 = 0 + 1 :=
  callback_once_when_configured_once (@id Unit) [] (fun _ p => p)
    (fun _ _ => rfl) none () ((), 0)

/-- A driver whose run completes normally but reports a compilation error,
returning `Err(ErrorGuaranteed)` without any fatal abort. -/
def errDriver : List String → Lints (List String) → RunCompilerOutcome :=
  fun _ _ => .err .mk

/-- Counterexample to claim C5 as stated: a driver run that completes without
a fatal abort but returns `Err(ErrorGuaranteed)` — which is what errors in the
target program produce — does not yield harness success: `with_lints`
propagates the error value. -/
theorem withLints_nonfatal_error_not_success :
    (errDriver [] { callback := fun ls => ls, tracked_files := [] }
        ≠ RunCompilerOutcome.fatal) ∧
      with_lints [] [] (fun ls : List String => ls) errDriver
        = Except.error ErrorGuaranteed.mk := by
  refine ⟨?_, rfl⟩
  intro h
  exact RunCompilerOutcome.noConfusion h

/-- Claim C5, amended: every compiler run whose driver call returns success
yields the harness success value `()` with no error payload — diagnostics that
leave the driver returning `Ok` (such as lint warnings) do not affect this.
A run whose driver returns `Err(ErrorGuaranteed)` instead yields that typed
error, not success. -/
theorem withLints_ok_run_yields_success (args tracked_files : List String) (callback : α → α)
    (driver : List String → Lints α → RunCompilerOutcome)
    (h : driver args { callback := callback, tracked_files := tracked_files }
        = RunCompilerOutcome.ok) :
    with_lints args tracked_files callback driver = Except.ok () := by
  simp [with_lints, h, catch_fatal_errors]

theorem withLints_ok_run_yields_success_witness :
    with_lints ["main.rs"] [] (@id (List String)) (fun _ _ => .ok) = Except.ok () :=
  withLints_ok_run_yields_success ["main.rs"] [] (@id (List String)) (fun _ _ => .ok) rfl

/-- Claim C6: when the configuration carries no pre-existing hook, the
installed combined hook is exactly the caller's callback applied to the given
registry — nothing more, nothing less. -/
theorem config_no_previous_exactly_callback (l : Lints α)
    (psc : Option (ParseSess → ParseSess)) :
    ((l.config { register_lints := none, parse_sess_created := psc })
        : Config σ α).register_lints
      = some (fun _ ls => l.callback ls) := rfl

/-- Claim C7: on an empty tracked-file set, the `parse_sess_created` hook
returns the parse session unchanged — in particular the dependency record's
element set and its insert-call counter are untouched: zero insertions and no
interning work. -/
theorem parseSessHook_empty_noop (tracked_files : List String) (ps : ParseSess)
    (h : tracked_files = []) :
    parseSessCreatedHook tracked_files ps = ps := by
  subst h
  rfl

theorem parseSessHook_empty_noop_witness :
    parseSessCreatedHook [] ⟨⟨{"x"}, 5⟩⟩ = ⟨⟨{"x"}, 5⟩⟩ :=
  parseSessHook_empty_noop [] ⟨⟨{"x"}, 5⟩⟩ rfl

/-- Claim C8: the dependency-injection step is total and has no failure path:
for every tracked-file set and every dependency record it is defined and
deterministic — its type is `ParseSess → ParseSess`, no `Option` or `Except`
anywhere — and its result is fully characterised: the record's elements grow
by exactly the interned tracked files and one insert call happens per tracked
file. -/
theorem dep_injection_total (T : List String) (ps : ParseSess) :
    parseSessCreatedHook T ps =
      { file_depinfo := { elems := ps.file_depinfo.elems ∪ T.toFinset,
                          inserts := ps.file_depinfo.inserts + T.length } } :=
  parseSessCreatedHook_spec T ps

/-- Claim C9: the argument strings are passed through to the driver unmodified
and are used for nothing else: the harness result factors through the driver's
outcome at exactly the caller-provided sequence `args` (paired with the
constructed `Lints` value), and two drivers agreeing at that one point give
identical harness results. -/
theorem withLints_args_passthrough (args tracked_files : List String) (callback : α → α)
    (driver driver₂ : List String → Lints α → RunCompilerOutcome)
    (h : driver args { callback := callback, tracked_files := tracked_files }
        = driver₂ args { callback := callback, tracked_files := tracked_files }) :
    with_lints args tracked_files callback driver
        = harnessOfOutcome
            (driver args { callback := callback, tracked_files := tracked_files }) ∧
      with_lints args tracked_files callback driver
        = with_lints args tracked_files callback driver₂ := by
  refine ⟨rfl, ?_⟩
  simp [with_lints, h]

theorem withLints_args_passthrough_witness :
    with_lints ["--foo"] [] (@id (List String))
          (fun a _ => if a = ["--foo"] then .ok else .fatal)
        = harnessOfOutcome
            ((fun (a : List String) (_ : Lints (List String)) =>
                if a = ["--foo"] then RunCompilerOutcome.ok else RunCompilerOutcome.fatal)
              ["--foo"] { callback := @id (List String), tracked_files := [] }) ∧
      with_lints ["--foo"] [] (@id (List String))
          (fun a _ => if a = ["--foo"] then .ok else .fatal)
        = with_lints ["--foo"] [] (@id (List String)) (fun _ _ => .ok) :=
  withLints_args_passthrough ["--foo"] [] (@id (List String))
    (fun a _ => if a = ["--foo"] then .ok else .fatal) (fun _ _ => .ok) (by simp)

/-- Claim C10: `Lints::config` installs the dependency-injection closure as
`parse_sess_created` unconditionally — whatever hook the configuration carried
before is overwritten, not chained, and appears nowhere in the result, so it
is never invoked afterwards. -/
theorem config_overwrites_parse_sess_hook (l : Lints α) (cfg : Config σ α) :
    (l.config cfg).parse_sess_created = some (parseSessCreatedHook l.tracked_files) := rfl

end RustcTools
